import Mathlib

/-!
Verification of the BTC T3 trend-monitor bot (three source variants:
`src/bot.js`, `src/unnamed/part_000`, `src/unnamed/part_001`).

Shallow embedding conventions:
* JS numbers carrying prices and indicator values are modelled as `ℚ`
  (the claims under study are algebraic/structural, and the source
  arithmetic is embedded exactly).
* Epoch-millisecond timestamps are modelled as `ℕ` (they are produced as
  `parseInt(c.time) * 1000`, hence non-negative integers); `Math.floor`
  on such a value is the identity, and `Math.floor` of a positive real
  quotient is `ℕ` division.
* The strategy loop's single iteration is embedded as a pure step
  function from monitor state and a fetch result to the next state plus
  an emission record; network effects (fetch, Telegram delivery) are
  inputs/outputs of the step, not performed by it.
-/

namespace T3Bot

/-! ## Indicator Engine: `ema` and `tillsonT3Series` (identical in all
three variants, `src/bot.js` lines 44-63). -/

/-- The tail of the EMA recurrence `result[i] = series[i] * m + result[i-1] * (1 - m)`:
`prev` is the previously emitted output value. -/
def emaGo (m : ℚ) (prev : ℚ) : List ℚ → List ℚ
  | [] => []
  | x :: xs =>
    let y := x * m + prev * (1 - m)
    y :: emaGo m y xs

/-- `ema(series, length)` from `src/bot.js` lines 44-53: empty input gives
empty output; otherwise the first output equals the first input and the
rest follow the recurrence with `multiplier = 2 / (length + 1)`. -/
def ema (series : List ℚ) (length : ℕ) : List ℚ :=
  match series with
  | [] => []
  | x :: xs => x :: emaGo (2 / ((length : ℚ) + 1)) x xs

/-- `tillsonT3Series(high, low, close, length, a)` from `src/bot.js`
lines 55-63: weighted typical price source, six chained EMA passes, and
the T3 polynomial combination of passes 3-6. Element reads `high[i]`,
`low[i]`, `e6[i]`, ... are embedded as `getD i 0` (the JS code only ever
indexes within range when the input series have equal length). -/
def tillsonT3Series (high low close : List ℚ) (length : ℕ) (a : ℚ) : List ℚ :=
  let src := (List.range close.length).map
    (fun i => (high.getD i 0 + low.getD i 0 + 2 * close.getD i 0) / 4)
  let e1 := ema src length
  let e2 := ema e1 length
  let e3 := ema e2 length
  let e4 := ema e3 length
  let e5 := ema e4 length
  let e6 := ema e5 length
  let c1 := -(a ^ 3)
  let c2 := 3 * a ^ 2 + 3 * a ^ 3
  let c3 := -6 * a ^ 2 - 3 * a - 3 * a ^ 3
  let c4 := 1 + 3 * a + a ^ 3 + 3 * a ^ 2
  (List.range e3.length).map
    (fun i => c1 * e6.getD i 0 + c2 * e5.getD i 0 + c3 * e4.getD i 0 + c4 * e3.getD i 0)

/-! ## Bar colors (`src/bot.js` lines 120-121). -/

inductive Color where
  | yellow
  | green
  | red
deriving DecidableEq

/-- Tail of the color classification: each element is compared with its
predecessor `prev`; strictly greater is green, otherwise red. -/
def colorGo (prev : ℚ) : List ℚ → List Color
  | [] => []
  | x :: xs => (if prev < x then Color.green else Color.red) :: colorGo x xs

/-- `series.map((v, i) => i ? v > series[i-1] ? 'green' : 'red' : 'yellow')`
from `src/bot.js` line 120: index 0 is yellow, later indices compare with
the predecessor. -/
def colorSeries : List ℚ → List Color
  | [] => []
  | x :: xs => Color.yellow :: colorGo x xs

/-! ## Candles, timestamps and the completed-bar boundary. -/

/-- A normalized candle as built by `fetchData` (`src/bot.js` lines 93-99):
`timestamp = parseInt(c.time) * 1000` (epoch ms, a natural number), OHLC
parsed as floats (modelled as `ℚ`). -/
structure Candle where
  timestamp : ℕ
  open_ : ℚ
  high : ℚ
  low : ℚ
  close : ℚ
deriving DecidableEq

/-- `const candleTs = Math.floor(last.timestamp)` from `src/bot.js` line
124 (identical in `src/unnamed/part_001` line 150): `last.timestamp` is
already an integer number of milliseconds, so `Math.floor` is the
identity on it. -/
def botCandleTs (ts : ℕ) : ℕ := ts

/-- `const candleTs = Math.floor(last.timestamp / 1000 / 7200) * 7200 * 1000`
from `src/unnamed/part_000` line 122: `ℕ` division is exactly
`Math.floor` of the positive real quotient, and the two successive
divisions floor only once, at the end, as in the source. -/
def part000CandleTs (ts : ℕ) : ℕ := ts / 1000 / 7200 * 7200 * 1000

/-! ## Trend state, event log and the strategy-loop step
(`src/bot.js` lines 107-155). -/

inductive Trend where
  | up
  | down
deriving DecidableEq

/-- An entry of `logs`: the source stores `{ trend, time: istTime }` where
`istTime` is the IST formatting of `candleTs`; the formatting is an
injective function of `candleTs`, so the entry is modelled with the raw
`candleTs` value. -/
structure TrendEvent where
  trend : Trend
  time : ℕ
deriving DecidableEq

/-- The mutable module-level state of `src/bot.js` lines 35-37:
`lastTrend` (initially `null`), `lastCandleTs` (initially `null`) and
`logs` (initially `[]`). -/
structure MonitorState where
  lastTrend : Option Trend
  lastCandleTs : Option ℕ
  logs : List TrendEvent
deriving DecidableEq

def initialState : MonitorState :=
  { lastTrend := none, lastCandleTs := none, logs := [] }

/-- What one loop iteration emitted: the Trend Event appended to the log
(if any), whether `sendTelegram` was invoked, and whether
`io.emit('log-update', …)` was invoked. -/
structure CycleOutput where
  appended : Option TrendEvent
  notified : Bool
  broadcasted : Bool
deriving DecidableEq

def noOutput : CycleOutput :=
  { appended := none, notified := false, broadcasted := false }

/-- `logs.push(ev); if (logs.length > 50) logs = logs.slice(-50);` from
`src/bot.js` lines 141-142: `slice(-50)` keeps the last 50 entries, i.e.
drops `length - 50` from the front. -/
def pushLog (logs : List TrendEvent) (ev : TrendEvent) : List TrendEvent :=
  let l := logs ++ [ev]
  if 50 < l.length then l.drop (l.length - 50) else l

/-- The indicator-and-agreement part of one cycle (`src/bot.js` lines
117-132): run `tillsonT3Series` with the two fixed parameter pairs
`(length1, a1) = (8, 0.7)` and `(length2, a2) = (5, 0.618)`, classify
colors, and compare the last colors (`color.at(-1)`). `some .up` iff both
end green, `some .down` iff both end red, `none` otherwise. -/
def cycleSignal (df : List Candle) : Option Trend :=
  let t3 := tillsonT3Series (df.map Candle.high) (df.map Candle.low)
    (df.map Candle.close) 8 (7 / 10)
  let t3f := tillsonT3Series (df.map Candle.high) (df.map Candle.low)
    (df.map Candle.close) 5 (618 / 1000)
  let color1 := colorSeries t3
  let color2 := colorSeries t3f
  if color1.getLast? = some Color.green ∧ color2.getLast? = some Color.green then
    some Trend.up
  else if color1.getLast? = some Color.red ∧ color2.getLast? = some Color.red then
    some Trend.down
  else
    none

/-- One iteration of `strategyLoop` from `src/bot.js` lines 109-154 as a
pure step: input is the current state and the `fetchData()` result
(`none` embeds the `null` failure sentinel). In the source the indicator
series are computed before the stale-bar check but are consumed only
after it, so `cycleSignal` is invoked after the guard here; the guard and
all state mutations are in source order. The `df.getLast?` `none` branch
is unreachable when the length guard has passed and only totalizes the
function. -/
def strategyStep (s : MonitorState) (df? : Option (List Candle)) :
    MonitorState × CycleOutput :=
  match df? with
  | none => (s, noOutput)
  | some df =>
    if df.length < 20 then (s, noOutput)
    else
      match df.getLast? with
      | none => (s, noOutput)
      | some last =>
        let candleTs := botCandleTs last.timestamp
        if s.lastCandleTs = some candleTs then (s, noOutput)
        else
          let s' : MonitorState := { s with lastCandleTs := some candleTs }
          match cycleSignal df with
          | none => (s', noOutput)
          | some trend =>
            if s'.lastTrend = some trend then (s', noOutput)
            else
              let ev : TrendEvent := { trend := trend, time := candleTs }
              ({ s' with lastTrend := some trend, logs := pushLog s'.logs ev },
                { appended := some ev, notified := true, broadcasted := true })

/-- Iterating the loop from a state over a list of per-cycle fetch
results; the reachable states of the monitor are exactly the values of
`runSteps initialState inputs`. -/
def runSteps (s : MonitorState) (inputs : List (Option (List Candle))) :
    MonitorState :=
  inputs.foldl (fun st i => (strategyStep st i).1) s

/-- A concrete fetch result used to exercise the loop: 20 candles at
constant price 1 with timestamps 0, …, 19. -/
def df20 : List Candle :=
  (List.range 20).map
    (fun i => { timestamp := i, open_ := 1, high := 1, low := 1, close := 1 })

/-! ## Notifier (`sendTelegram`) and startup credential handling. -/

/-- The two messaging credentials read from the environment
(`BOT_TOKEN`, `CHAT_ID`). `none` embeds an absent (or empty, hence JS
falsy) environment variable. -/
structure TelegramEnv where
  botToken : Option String
  chatId : Option String
deriving DecidableEq

/-- What a `sendTelegram` call did: returned early on the 10-minute
cooldown, returned early on missing credentials, or attempted the
outbound POST (with the delivery success an input from the network). -/
inductive SendOutcome where
  | skippedCooldown
  | skippedNoCreds
  | attempted (delivered : Bool)
deriving DecidableEq

/-- `true` iff the call performed an outbound delivery attempt. -/
def SendOutcome.isAttempt : SendOutcome → Bool
  | .attempted _ => true
  | _ => false

/-- The Notifier's own state in `src/unnamed/part_000`
(`global.botState.lastAlertTs`, initially `0`): the timestamp of the
last successful delivery. -/
structure NotifierState where
  lastAlertTs : ℕ
deriving DecidableEq

/-- `sendTelegram(msg)` from `src/unnamed/part_000` lines 79-97: first
the 10-minute cooldown check `now - state.lastAlertTs < 10 * 60 * 1000`
(computed over JS numbers, hence in `ℤ`), then the credential check,
then the POST; `lastAlertTs` is updated to `now` only on delivery
success. `deliveryOk` is the outcome of the network call, an input to
the embedding. -/
def sendTelegram000 (st : NotifierState) (env : TelegramEnv) (now : ℕ)
    (deliveryOk : Bool) : NotifierState × SendOutcome :=
  if (now : ℤ) - (st.lastAlertTs : ℤ) < 10 * 60 * 1000 then
    (st, SendOutcome.skippedCooldown)
  else if env.botToken.isNone || env.chatId.isNone then
    (st, SendOutcome.skippedNoCreds)
  else if deliveryOk then
    ({ lastAlertTs := now }, SendOutcome.attempted true)
  else
    (st, SendOutcome.attempted false)

/-- `sendTelegram(msg)` from `src/unnamed/part_001` lines 67-82: missing
credentials log and return before any network call; otherwise the POST
is attempted and failure is caught and logged. No cooldown state. -/
def sendTelegram001 (env : TelegramEnv) (deliveryOk : Bool) : SendOutcome :=
  if env.botToken.isNone || env.chatId.isNone then
    SendOutcome.skippedNoCreds
  else
    SendOutcome.attempted deliveryOk

/-- The startup guard of `src/bot.js` lines 27-30:
`if (!BOT_TOKEN || !CHAT_ID) { console.error(...); process.exit(1); }` —
`true` iff the process exits at startup. -/
def botStartupExits (env : TelegramEnv) : Bool :=
  env.botToken.isNone || env.chatId.isNone

/-! ## Market Data Gateway: the `fetchData` row filter and
normalization (`src/bot.js` lines 91-99). -/

/-- A raw API row `{ time, open, high, low, close }`. Each field is
`Option`-valued: `none` embeds an absent/null/undefined field. `time` is
kept as the parsed integer seconds value. -/
structure RawRow where
  time : Option ℕ
  open_ : Option ℚ
  high : Option ℚ
  low : Option ℚ
  close : Option ℚ
deriving DecidableEq

/-- JS truthiness of a numeric field: absent fields and the number `0`
are both falsy. -/
def truthyQ : Option ℚ → Bool
  | none => false
  | some v => v ≠ 0

/-- JS truthiness of the `time` field. -/
def truthyT : Option ℕ → Bool
  | none => false
  | some v => v ≠ 0

/-- The filter predicate `c => c.open && c.high && c.low && c.close && c.time`
from `src/bot.js` line 92: it tests truthiness of each field, not
presence. -/
def rowKept (c : RawRow) : Bool :=
  truthyQ c.open_ && truthyQ c.high && truthyQ c.low && truthyQ c.close &&
    truthyT c.time

/-- The `.map` of `src/bot.js` lines 93-99 normalizing a kept row into a
`Candle` (`timestamp = parseInt(c.time) * 1000`); `getD` defaults are
never consulted on rows that passed `rowKept`. -/
def toCandle (c : RawRow) : Candle :=
  { timestamp := c.time.getD 0 * 1000
    open_ := c.open_.getD 0
    high := c.high.getD 0
    low := c.low.getD 0
    close := c.close.getD 0 }

/-- The successful-response pipeline of `fetchData` (`src/bot.js` lines
91-99): filter on field truthiness, normalize, sort ascending by
timestamp. -/
def fetchNormalize (rows : List RawRow) : List Candle :=
  ((rows.filter rowKept).map toCandle).mergeSort
    (fun a b => a.timestamp ≤ b.timestamp)

end T3Bot

namespace T3Bot

theorem emaGo_replicate (m v : ℚ) (k : ℕ) :
    emaGo m v (List.replicate k v) = List.replicate k v := by
  induction k with
  | zero => rfl
  | succ k ih =>
    simp only [List.replicate_succ, emaGo]
    have hv : v * m + v * (1 - m) = v := by ring
    rw [hv, ih]

theorem ema_replicate (v : ℚ) (n len : ℕ) :
    ema (List.replicate n v) len = List.replicate n v := by
  cases n with
  | zero => rfl
  | succ n =>
    simp only [List.replicate_succ, ema]
    rw [emaGo_replicate]

theorem emaGo_length (m prev : ℚ) (xs : List ℚ) :
    (emaGo m prev xs).length = xs.length := by
  induction xs generalizing prev with
  | nil => rfl
  | cons x xs ih => simp [emaGo, ih]

theorem ema_length (s : List ℚ) (len : ℕ) : (ema s len).length = s.length := by
  cases s with
  | nil => rfl
  | cons x xs => simp [ema, emaGo_length]

theorem range_map_const {α : Type} (n : ℕ) (f : ℕ → α) (c : α)
    (h : ∀ i < n, f i = c) : (List.range n).map f = List.replicate n c := by
  have hmem : ∀ b ∈ (List.range n).map f, b = c := by
    intro b hb
    rcases List.mem_map.mp hb with ⟨i, hi, rfl⟩
    exact h i (List.mem_range.mp hi)
  have h2 := List.eq_replicate_of_mem hmem
  simpa using h2

theorem tillsonT3_replicate (v : ℚ) (n len : ℕ) (a : ℚ) :
    tillsonT3Series (List.replicate n v) (List.replicate n v) (List.replicate n v) len a
      = List.replicate n v := by
  unfold tillsonT3Series
  simp only [List.length_replicate]
  rw [range_map_const n _ v (by
    intro i hi
    simp [List.getD_eq_getElem?_getD, List.getElem?_replicate, hi]
    ring)]
  rw [ema_replicate, ema_replicate, ema_replicate, ema_replicate, ema_replicate, ema_replicate]
  simp only [List.length_replicate]
  rw [range_map_const n _ v (by
    intro i hi
    simp [List.getD_eq_getElem?_getD, List.getElem?_replicate, hi]
    ring)]

theorem colorGo_replicate (v : ℚ) (k : ℕ) :
    colorGo v (List.replicate k v) = List.replicate k Color.red := by
  induction k with
  | zero => rfl
  | succ k ih =>
    simp [List.replicate_succ, colorGo, ih]

theorem colorSeries_replicate (v : ℚ) (n : ℕ) :
    colorSeries (List.replicate (n + 1) v) = Color.yellow :: List.replicate n Color.red := by
  simp only [List.replicate_succ, colorSeries]
  rw [colorGo_replicate]

theorem getLast?_cons_replicate {α : Type} (x c : α) (n : ℕ) (h : 0 < n) :
    (x :: List.replicate n c).getLast? = some c := by
  induction n generalizing x with
  | zero => omega
  | succ n ih =>
    cases n with
    | zero => rfl
    | succ m =>
      rw [List.replicate_succ, List.getLast?_cons_cons]
      exact ih x (Nat.succ_pos m)

theorem df20_map_high : df20.map Candle.high = List.replicate 20 1 := by
  rw [df20, List.map_map]
  exact range_map_const 20 _ 1 (fun i _ => rfl)

theorem df20_map_low : df20.map Candle.low = List.replicate 20 1 := by
  rw [df20, List.map_map]
  exact range_map_const 20 _ 1 (fun i _ => rfl)

theorem df20_map_close : df20.map Candle.close = List.replicate 20 1 := by
  rw [df20, List.map_map]
  exact range_map_const 20 _ 1 (fun i _ => rfl)

theorem cycleSignal_df20 : cycleSignal df20 = some Trend.down := by
  unfold cycleSignal
  rw [df20_map_high, df20_map_low, df20_map_close, tillsonT3_replicate, tillsonT3_replicate]
  have h19 : colorSeries (List.replicate 20 (1 : ℚ))
      = Color.yellow :: List.replicate 19 Color.red := colorSeries_replicate 1 19
  simp only [h19, getLast?_cons_replicate _ Color.red 19 (by norm_num)]
  simp

theorem step_df20_eval :
    strategyStep initialState (some df20) =
      ({ lastTrend := some Trend.down, lastCandleTs := some 19,
         logs := [{ trend := Trend.down, time := 19 }] },
       { appended := some { trend := Trend.down, time := 19 },
         notified := true, broadcasted := true }) := by
  have hlast : df20.getLast?
      = some { timestamp := 19, open_ := 1, high := 1, low := 1, close := 1 } := rfl
  have hlen : df20.length = 20 := rfl
  simp only [strategyStep, hlen, hlast, cycleSignal_df20, initialState, botCandleTs,
    pushLog, noOutput]
  simp

theorem step_lastCandleTs (s s1 : MonitorState) (o1 : CycleOutput)
    (df : List Candle) (c : Candle)
    (hlen : 20 ≤ df.length) (hc : df.getLast? = some c)
    (hstep : strategyStep s (some df) = (s1, o1)) :
    s1.lastCandleTs = some (botCandleTs c.timestamp) := by
  have hlt : ¬ df.length < 20 := Nat.not_lt.mpr hlen
  simp only [strategyStep, hc, if_neg hlt] at hstep
  split at hstep
  · rename_i heq
    injection hstep with h1 h2
    subst h1
    exact heq
  · split at hstep
    · injection hstep with h1 h2
      subst h1
      rfl
    · split at hstep
      · injection hstep with h1 h2
        subst h1
        rfl
      · injection hstep with h1 h2
        subst h1
        rfl

/-- C1: for any two consecutive evaluated poll cycles whose fetched data
passes the 20-candle guard and whose latest-bar boundary timestamps are
equal, the second cycle appends no Trend Event, does not invoke the
Notifier, and leaves the monitor state unchanged: the loop never emits
twice for the same evaluated-bar timestamp. -/
theorem strategyStep_no_repeat (s s1 : MonitorState) (o1 : CycleOutput)
    (df1 df2 : List Candle) (c1 c2 : Candle)
    (hlen1 : 20 ≤ df1.length) (hlen2 : 20 ≤ df2.length)
    (hc1 : df1.getLast? = some c1) (hc2 : df2.getLast? = some c2)
    (hts : botCandleTs c2.timestamp = botCandleTs c1.timestamp)
    (hstep : strategyStep s (some df1) = (s1, o1)) :
    strategyStep s1 (some df2) = (s1, noOutput) := by
  have hts1 : s1.lastCandleTs = some (botCandleTs c1.timestamp) :=
    step_lastCandleTs s s1 o1 df1 c1 hlen1 hc1 hstep
  have hlt2 : ¬ df2.length < 20 := Nat.not_lt.mpr hlen2
  simp only [strategyStep, hc2, if_neg hlt2, hts, hts1, if_pos rfl, ite_true]

theorem colorGo_getElem (prev : ℚ) (xs : List ℚ) (i : ℕ) (hi : i < xs.length) :
    (colorGo prev xs)[i]? =
      some (if (prev :: xs).getD i 0 < xs.getD i 0 then Color.green else Color.red) := by
  induction xs generalizing prev i with
  | nil => simp at hi
  | cons x xs ih =>
    cases i with
    | zero => simp [colorGo]
    | succ i =>
      simp only [colorGo, List.getElem?_cons_succ]
      rw [ih x i (by simpa using hi)]
      simp [List.getD_cons_succ]

/-- C3: for every smoothed series, color index 0 is neutral (yellow),
and index `i + 1` is green exactly when the value strictly exceeds its
predecessor and red otherwise — in particular exact equality of
consecutive values is classified red (falling). -/
theorem colorSeries_spec (s : List ℚ) :
    (0 < s.length → (colorSeries s)[0]? = some Color.yellow) ∧
    (∀ i, i + 1 < s.length →
      (colorSeries s)[i + 1]? =
        some (if s.getD i 0 < s.getD (i + 1) 0 then Color.green else Color.red)) := by
  constructor
  · intro h
    cases s with
    | nil => simp at h
    | cons x xs => simp [colorSeries]
  · intro i hi
    cases s with
    | nil => simp at hi
    | cons x xs =>
      simp only [colorSeries, List.getElem?_cons_succ]
      rw [colorGo_getElem x xs i (by simpa using hi)]
      simp [List.getD_cons_succ]

theorem pushLog_length_le (logs : List TrendEvent) (ev : TrendEvent) :
    (pushLog logs ev).length ≤ 50 := by
  simp only [pushLog]
  split
  · rename_i h
    simp only [List.length_drop]
    omega
  · rename_i h
    simp only [not_lt, List.length_append, List.length_cons, List.length_nil] at h ⊢
    omega

theorem step_logs_cases (s : MonitorState) (i : Option (List Candle)) :
    (strategyStep s i).1.logs = s.logs ∨
      ∃ ev, (strategyStep s i).1.logs = pushLog s.logs ev := by
  cases i with
  | none => exact Or.inl rfl
  | some df =>
    simp only [strategyStep]
    split
    · exact Or.inl rfl
    · split
      · exact Or.inl rfl
      · split
        · exact Or.inl rfl
        · split
          · exact Or.inl rfl
          · split
            · exact Or.inl rfl
            · exact Or.inr ⟨_, rfl⟩

theorem pushLog_at_capacity (logs : List TrendEvent) (ev : TrendEvent)
    (h : logs.length = 50) : pushLog logs ev = logs.tail ++ [ev] := by
  simp only [pushLog]
  rw [if_pos (by simp [h])]
  have h1 : (logs ++ [ev]).length - 50 = 1 := by simp [h]
  rw [h1, List.drop_append_eq_append_drop]
  simp [h, List.drop_one]

/-- C4: in every reachable state of the monitor loop the event log holds
at most 50 entries, and appending to a log already holding 50 entries
evicts exactly the oldest entry, preserving the FIFO order of the
survivors. -/
theorem eventLog_bounded (inputs : List (Option (List Candle))) :
    (runSteps initialState inputs).logs.length ≤ 50 ∧
    ∀ logs ev, logs.length = 50 → pushLog logs ev = logs.tail ++ [ev] := by
  constructor
  · suffices h : ∀ (ins : List (Option (List Candle))) (s : MonitorState),
        s.logs.length ≤ 50 → (runSteps s ins).logs.length ≤ 50 from
      h inputs initialState (by simp [initialState])
    intro ins
    induction ins with
    | nil => intro s hs; exact hs
    | cons i rest ih =>
      intro s hs
      simp only [runSteps, List.foldl_cons]
      apply ih
      rcases step_logs_cases s i with h | ⟨ev, h⟩
      · rw [h]; exact hs
      · rw [h]; exact pushLog_length_le _ _
  · exact pushLog_at_capacity

/-- C8: a poll cycle whose fetch fails (the `null` sentinel) or returns
fewer than 20 candles appends no Trend Event, invokes no Notifier, and
leaves the evaluated-bar timestamp, trend state and event log unchanged. -/
theorem insufficientData_noop (s : MonitorState) (df : List Candle)
    (h : df.length < 20) :
    strategyStep s (some df) = (s, noOutput) ∧ strategyStep s none = (s, noOutput) := by
  constructor
  · simp only [strategyStep, if_pos h]
  · rfl

/-- C5: a `sendTelegram` invocation (the `src/unnamed/part_000` Notifier,
the variant owning cooldown state) arriving less than 10 minutes after
the last recorded delivery timestamp performs no outbound delivery
attempt and leaves the cooldown state unchanged. -/
theorem sendTelegram_cooldown (st : NotifierState) (env : TelegramEnv) (now : ℕ)
    (ok : Bool) (h : (now : ℤ) - (st.lastAlertTs : ℤ) < 10 * 60 * 1000) :
    sendTelegram000 st env now ok = (st, SendOutcome.skippedCooldown) := by
  simp only [sendTelegram000, if_pos h]

/-- C6: for every constant input series and every window length, six
successive applications of `ema` return the constant series unchanged
(EMA of a constant series is itself). -/
theorem ema_const_six (v : ℚ) (n length : ℕ) :
    ema (ema (ema (ema (ema (ema (List.replicate n v) length) length) length)
      length) length) length = List.replicate n v := by
  rw [ema_replicate, ema_replicate, ema_replicate, ema_replicate, ema_replicate,
    ema_replicate]

/-- C7: for every parameter pair and equal-length high/low/close input
series, `tillsonT3Series` output has the same length as the input; empty
input yields empty output. -/
theorem tillsonT3_length (high low close : List ℚ) (length n : ℕ) (a : ℚ)
    (hh : high.length = n) (hl : low.length = n) (hc : close.length = n) :
    (tillsonT3Series high low close length a).length = n ∧
    tillsonT3Series [] [] [] length a = [] := by
  constructor
  · unfold tillsonT3Series
    simp only [List.length_map, List.length_range, ema_length, hc]
  · rfl

/-- C9 (amended): with a messaging credential absent, the `src/bot.js`
variant exits at startup, while the `src/unnamed/part_000` and
`src/unnamed/part_001` variants start with alerting disabled: every
`sendTelegram` invocation is a no-op (no delivery attempt, no error,
state unchanged). -/
theorem missing_creds_behavior (env : TelegramEnv)
    (h : (env.botToken.isNone || env.chatId.isNone) = true) :
    botStartupExits env = true ∧
    (∀ ok, sendTelegram001 env ok = SendOutcome.skippedNoCreds) ∧
    (∀ st now ok, (sendTelegram000 st env now ok).1 = st ∧
      ((sendTelegram000 st env now ok).2).isAttempt = false) := by
  refine ⟨h, fun ok => by simp only [sendTelegram001, if_pos h], fun st now ok => ?_⟩
  simp only [sendTelegram000, h, if_pos]
  split
  · exact ⟨rfl, rfl⟩
  · exact ⟨rfl, rfl⟩

/-- C9 (counterexample): with both credentials absent, the `src/bot.js`
startup guard calls `process.exit(1)` — startup fails, contradicting the
claim that absence of credentials never fails startup. -/
theorem botStartup_missing_creds_exits :
    botStartupExits { botToken := none, chatId := none } = true := rfl

/-- C10: a fetched API row in which some OHLC or time field is zero is
excluded from the returned candle list by the `fetchData` filter even
though every field is present: the filter tests JS truthiness, not
presence. -/
theorem fetch_zero_field_excluded (c : RawRow)
    (hall : c.time.isSome ∧ c.open_.isSome ∧ c.high.isSome ∧ c.low.isSome ∧
      c.close.isSome)
    (hz : c.open_ = some 0 ∨ c.high = some 0 ∨ c.low = some 0 ∨
      c.close = some 0 ∨ c.time = some 0) :
    rowKept c = false ∧ ∀ rows : List RawRow, c ∉ rows.filter rowKept := by
  have hkept : rowKept c = false := by
    unfold rowKept
    rcases hz with h | h | h | h | h <;> rw [h] <;> simp [truthyQ, truthyT]
  refine ⟨hkept, fun rows hmem => ?_⟩
  have := (List.mem_filter.mp hmem).2
  rw [hkept] at this
  exact Bool.false_ne_true this

/-- C2 (amended): the `src/unnamed/part_000` variant records the
completed-bar boundary `⌊ts / 7200000⌋ * 7200000`; the `src/bot.js` and
`src/unnamed/part_001` variants record `Math.floor(last.timestamp)`,
i.e. the latest candle's raw timestamp, which coincides with the 2-hour
boundary formula exactly when the timestamp is a multiple of the 2-hour
bar duration. -/
theorem candleTs_boundary (ts : ℕ) :
    part000CandleTs ts = ts / 7200000 * 7200000 ∧
    (botCandleTs ts = ts / 7200000 * 7200000 ↔ 7200000 ∣ ts) := by
  constructor
  · unfold part000CandleTs
    rw [Nat.div_div_eq_div_mul, Nat.mul_assoc]
  · unfold botCandleTs
    constructor
    · intro h
      exact ⟨ts / 7200000, by rw [Nat.mul_comm]; exact h⟩
    · intro h
      exact (Nat.div_mul_cancel h).symm

/-- C2 (counterexample): running the `src/bot.js` monitor step on a
20-candle fetch whose latest candle has timestamp 19 records
`lastCandleTs = 19`, while the claimed formula
`floor(19 / 7200000) * 7200000` gives 0. -/
theorem candleTs_boundary_counterexample :
    (strategyStep initialState (some df20)).1.lastCandleTs = some (botCandleTs 19) ∧
    botCandleTs 19 ≠ 19 / 7200000 * 7200000 := by
  rw [step_df20_eval]
  exact ⟨rfl, by decide⟩

theorem strategyStep_no_repeat_witness :
    strategyStep
      { lastTrend := some Trend.down, lastCandleTs := some 19,
        logs := [{ trend := Trend.down, time := 19 }] } (some df20) =
      ({ lastTrend := some Trend.down, lastCandleTs := some 19,
         logs := [{ trend := Trend.down, time := 19 }] }, noOutput) :=
  strategyStep_no_repeat initialState
    { lastTrend := some Trend.down, lastCandleTs := some 19,
      logs := [{ trend := Trend.down, time := 19 }] }
    { appended := some { trend := Trend.down, time := 19 }, notified := true,
      broadcasted := true }
    df20 df20
    { timestamp := 19, open_ := 1, high := 1, low := 1, close := 1 }
    { timestamp := 19, open_ := 1, high := 1, low := 1, close := 1 }
    (by decide) (by decide) rfl rfl rfl step_df20_eval

theorem colorSeries_spec_witness :
    (colorSeries [1, 2, 2])[0]? = some Color.yellow ∧
    (colorSeries [1, 2, 2])[1]? = some Color.green ∧
    (colorSeries [1, 2, 2])[2]? = some Color.red := by
  have h := colorSeries_spec [1, 2, 2]
  refine ⟨h.1 (by norm_num), ?_, ?_⟩
  · have h1 := h.2 0 (by norm_num)
    norm_num [List.getD] at h1
    exact h1
  · have h2 := h.2 1 (by norm_num)
    norm_num [List.getD] at h2
    exact h2

theorem eventLog_bounded_witness :
    (runSteps initialState []).logs.length ≤ 50 ∧
    pushLog (List.replicate 50 { trend := Trend.up, time := 0 })
        { trend := Trend.up, time := 0 } =
      (List.replicate 50 ({ trend := Trend.up, time := 0 } : TrendEvent)).tail ++
        [{ trend := Trend.up, time := 0 }] :=
  ⟨(eventLog_bounded []).1, (eventLog_bounded []).2 _ _ (by simp)⟩

theorem insufficientData_noop_witness :
    strategyStep initialState (some []) = (initialState, noOutput) ∧
    strategyStep initialState none = (initialState, noOutput) :=
  insufficientData_noop initialState [] (by decide)

theorem sendTelegram_cooldown_witness :
    sendTelegram000 { lastAlertTs := 1000000 }
        { botToken := some "t", chatId := some "c" } 1200000 true =
      ({ lastAlertTs := 1000000 }, SendOutcome.skippedCooldown) :=
  sendTelegram_cooldown { lastAlertTs := 1000000 }
    { botToken := some "t", chatId := some "c" } 1200000 true (by decide)

theorem tillsonT3_length_witness :
    (tillsonT3Series [1] [1] [1] 8 (7 / 10)).length = 1 ∧
    tillsonT3Series [] [] [] 8 (7 / 10) = [] :=
  tillsonT3_length [1] [1] [1] 8 1 (7 / 10) (by simp) (by simp) (by simp)

theorem missing_creds_behavior_witness :
    botStartupExits { botToken := none, chatId := none } = true ∧
    sendTelegram001 { botToken := none, chatId := none } true
      = SendOutcome.skippedNoCreds ∧
    (sendTelegram000 { lastAlertTs := 0 } { botToken := none, chatId := none }
        10000000 true).1 = { lastAlertTs := 0 } ∧
    ((sendTelegram000 { lastAlertTs := 0 } { botToken := none, chatId := none }
        10000000 true).2).isAttempt = false := by
  have h := missing_creds_behavior { botToken := none, chatId := none } (by decide)
  exact ⟨h.1, h.2.1 true, (h.2.2 { lastAlertTs := 0 } 10000000 true).1,
    (h.2.2 { lastAlertTs := 0 } 10000000 true).2⟩

theorem fetch_zero_field_excluded_witness :
    rowKept
      { time := some 1, open_ := some 0, high := some 1, low := some 1,
        close := some 1 } = false ∧
    ({ time := some 1, open_ := some 0, high := some 1, low := some 1,
       close := some 1 } : RawRow) ∉
      ([{ time := some 1, open_ := some 0, high := some 1, low := some 1,
          close := some 1 }] : List RawRow).filter rowKept := by
  have h := fetch_zero_field_excluded
    { time := some 1, open_ := some 0, high := some 1, low := some 1, close := some 1 }
    ⟨rfl, rfl, rfl, rfl, rfl⟩ (Or.inl rfl)
  exact ⟨h.1, h.2 _⟩

end T3Bot
